import Mathlib

set_option maxRecDepth 100000

/-!
Verification development for the fal-minimax-image-01 MCP server
(TypeScript source: src/index.ts).  The definitions below are a shallow
embedding of the program: pure string manipulation is translated to Lean
functions on List Char / String; the four MCP tool handlers become total
Lean functions parameterised by the startup configuration flag, the
gateway behaviour (an Except-valued oracle for the vendor SDK calls) and
a download oracle; the filesystem effect of downloadImage is modelled as
an explicit directory state (path to byte size).  JavaScript truthiness
tests on numbers and strings are translated faithfully (0 and the empty
string are falsy).  Character-class and case-mapping semantics of the
regexes /[^a-z0-9\s]/ and String.prototype.toLowerCase are modelled over
the ASCII range, which covers every character class the program's own
string constants and the claims exercise.
-/

/-- Whitespace characters matched by the regex class \s (ASCII range). -/
def wsChars : List Char := [' ', '\t', '\n', '\r', '\x0B', '\x0C']

/-- Boolean whitespace test for the \s class. -/
def isWs (c : Char) : Bool := decide (c ∈ wsChars)

/-- Characters kept by the filter regex /[^a-z0-9\s]/ besides whitespace. -/
def keepChars : List Char := "abcdefghijklmnopqrstuvwxyz0123456789".data

/-- Test for the character class [a-z0-9\s]: the complement of what the
source deletes with .replace of /[^a-z0-9\s]/g by the empty string. -/
def keep (c : Char) : Bool := decide (c ∈ keepChars) || isWs c

/-- Upper/lower case pairs of toLowerCase, ASCII range. -/
def upperLower : List (Char × Char) :=
  "ABCDEFGHIJKLMNOPQRSTUVWXYZ".data.zip "abcdefghijklmnopqrstuvwxyz".data

/-- Character-level model of String.prototype.toLowerCase (ASCII range). -/
def jsToLower (c : Char) : Char :=
  match upperLower.find? (fun p => p.fst == c) with
  | some p => p.snd
  | none => c

/-- Model of .replace of /\s+/g by an underscore: every maximal run of
whitespace becomes a single underscore.  The Bool argument records
whether the previous character was part of a whitespace run. -/
def collapseWs : Bool → List Char → List Char
  | _, [] => []
  | prevWs, c :: cs =>
    if isWs c then
      if prevWs then collapseWs true cs else '_' :: collapseWs true cs
    else c :: collapseWs false cs

/-- List-level body of the safePrompt computation in generateImageFilename:
toLowerCase, then delete /[^a-z0-9\s]/g, then collapse /\s+/g to an
underscore, then .substring of 0 and 50. -/
def safePromptL (l : List Char) : List Char :=
  (collapseWs false ((l.map jsToLower).filter keep)).take 50

/-- The sanitize-and-truncate transform computing safePrompt inside
generateImageFilename (src/index.ts lines 94-98). -/
def safePrompt (s : String) : String := ⟨safePromptL s.data⟩

/-- Model of .replace of /[:.]/g by a dash, applied to the ISO timestamp
(src/index.ts line 100). -/
def tsReplace (s : String) : String :=
  ⟨s.data.map (fun c => if c = ':' ∨ c = '.' then '-' else c)⟩

/-- The seed part of the filename: the template inserts _{seed} when the
seed is truthy in JavaScript, so a seed of 0 (like an absent seed)
contributes nothing (src/index.ts line 101). -/
def seedPart : Option Nat → String
  | some s => if s = 0 then "" else "_" ++ toString s
  | none => ""

/-- generateImageFilename (src/index.ts lines 93-103).  The wall-clock
ISO timestamp produced by new Date is passed in as the argument now. -/
def generateImageFilename (prompt : String) (index : Nat) (seed : Option Nat)
    (now : String) : String :=
  "minimax_" ++ safePrompt prompt ++ seedPart seed ++ "_" ++ toString index ++
    "_" ++ tsReplace now ++ ".png"

example : safePrompt "a b" = "a_b" := by decide
example : safePrompt "a_b" = "ab" := by decide
example : safePrompt "Hello, World!" = "hello_world" := by decide
example : generateImageFilename "Cat" 1 (some 7) "2025-01-01T00:00:00.000Z"
    = "minimax_cat_7_1_2025-01-01T00-00-00-000Z.png" := by decide

/-- One entry of the images array of MinimaxImageResult. -/
structure ImageInfo where
  url : String
  content_type : Option String
  file_name : Option String
  file_size : Option Nat
deriving DecidableEq

/-- MinimaxImageResult (src/index.ts lines 29-37). -/
structure MinimaxImageResult where
  images : List ImageInfo
  seed : Option Nat
deriving DecidableEq

/-- The value resolved by fal.subscribe: a data payload plus requestId. -/
structure SubscribeResult where
  data : MinimaxImageResult
  requestId : String
deriving DecidableEq

/-- One record pushed onto downloadedImages by the materialization loops
(src/index.ts lines 207-228 and 521-541). -/
structure DownloadedArtifact where
  url : String
  localPath : Option String
  index : Nat
  content_type : String
  file_name : String
  file_size : Option Nat
  filename : String
deriving DecidableEq

/-- The response envelope of a tool handler: a list of text content
blocks plus the isError flag (absent on success paths, modelled false). -/
structure ToolResponse where
  content : List String
  isError : Bool
deriving DecidableEq

/-- Arguments of minimax_generate after MCP decoding; absent optional
fields are none (src/index.ts lines 162-168). -/
structure GenArgs where
  prompt : String
  aspect_ratio : Option String
  num_images : Option Nat
  prompt_optimizer : Option Bool
  sync_mode : Option Bool
deriving DecidableEq

/-- The input object built for fal.subscribe (src/index.ts lines 172-180):
defaults applied by destructuring, prompt_optimizer added only when
provided. -/
structure GenInput where
  prompt : String
  aspect_ratio : String
  num_images : Nat
  sync_mode : Bool
  prompt_optimizer : Option Bool
deriving DecidableEq

/-- Destructuring defaults of the minimax_generate handler
(src/index.ts lines 162-180). -/
def mkGenInput (a : GenArgs) : GenInput :=
  { prompt := a.prompt
    aspect_ratio := a.aspect_ratio.getD "1:1"
    num_images := a.num_images.getD 1
    sync_mode := a.sync_mode.getD true
    prompt_optimizer := a.prompt_optimizer }

/-- Arguments of minimax_generate_queue (src/index.ts line 341). -/
structure QueueArgs where
  prompt : String
  aspect_ratio : Option String
  num_images : Option Nat
  prompt_optimizer : Option Bool
  webhook_url : Option String
deriving DecidableEq

/-- The rest-spread input sent to fal.queue.submit: all arguments except
webhook_url, with no defaulting applied (src/index.ts line 341). -/
structure QueueInput where
  prompt : String
  aspect_ratio : Option String
  num_images : Option Nat
  prompt_optimizer : Option Bool
deriving DecidableEq

/-- Splitting of the queue arguments into body and webhook target. -/
def mkQueueInput (a : QueueArgs) : QueueInput :=
  { prompt := a.prompt
    aspect_ratio := a.aspect_ratio
    num_images := a.num_images
    prompt_optimizer := a.prompt_optimizer }

/-- The value resolved by fal.queue.submit. -/
structure SubmitResult where
  request_id : String
deriving DecidableEq

/-- Arguments of minimax_queue_status (src/index.ts line 419). -/
structure StatusArgs where
  request_id : String
  logs : Option Bool
deriving DecidableEq

/-- The request sent to fal.queue.status (src/index.ts lines 424-427),
with the logs default of true applied by destructuring. -/
structure StatusInput where
  requestId : String
  logs : Bool
deriving DecidableEq

/-- Destructuring defaults of the minimax_queue_status handler. -/
def mkStatusInput (a : StatusArgs) : StatusInput :=
  { requestId := a.request_id, logs := a.logs.getD true }

/-- One log line of a queue status payload. -/
structure LogEntry where
  timestamp : String
  message : String
deriving DecidableEq

/-- The value resolved by fal.queue.status. -/
structure QueueStatusResult where
  status : String
  response_url : Option String
  logs : Option (List LogEntry)
deriving DecidableEq

/-- The value resolved by fal.queue.result; only its data field is read
by the handler (src/index.ts line 509). -/
structure QueueFetchResult where
  data : MinimaxImageResult
deriving DecidableEq

/-- Right-fold concatenation of text chunks; any grouping of the ++ in a
template literal is equal to this by associativity. -/
def strConcat : List String → String
  | [] => ""
  | s :: rest => s ++ strConcat rest

/-- Model of Array.prototype.join with a separator. -/
def joinSep (sep : String) : List String → String
  | [] => ""
  | [s] => s
  | s :: rest => s ++ sep ++ joinSep sep rest

/-- The JavaScript truthiness-based defaulting pattern a || d applied to
optional strings: the empty string is falsy and also falls to d. -/
def orDefault (o : Option String) (d : String) : String :=
  match o with
  | some s => if s = "" then d else s
  | none => d

/-- The record pushed for image number j (0-based) in the materialization
loop; localPath carries the download outcome (some path on success, null
on a caught download failure), both branches agreeing on every other
field (src/index.ts lines 201-229). -/
def mkArtifact (dl : Nat → Option String) (prompt : String) (seed : Option Nat)
    (ts : String) (j : Nat) (img : ImageInfo) : DownloadedArtifact :=
  let filename := generateImageFilename prompt (j + 1) seed ts
  { url := img.url
    localPath := dl j
    index := j + 1
    content_type := orDefault img.content_type "image/png"
    file_name := orDefault img.file_name filename
    file_size := img.file_size
    filename := filename }

/-- The sequential download loop, starting at 0-based position k. -/
def materializeFrom (dl : Nat → Option String) (prompt : String)
    (seed : Option Nat) (ts : String) : Nat → List ImageInfo → List DownloadedArtifact
  | _, [] => []
  | k, img :: rest =>
    mkArtifact dl prompt seed ts k img ::
      materializeFrom dl prompt seed ts (k + 1) rest

/-- The full materialization pass over the images array of a result
(src/index.ts lines 199-230). -/
def materialize (dl : Nat → Option String) (prompt : String) (seed : Option Nat)
    (ts : String) (imgs : List ImageInfo) : List DownloadedArtifact :=
  materializeFrom dl prompt seed ts 0 imgs

/-- The per-image details block (src/index.ts lines 233-245); the Local
Path line appears only for a non-null localPath and the File Size line
only for a truthy (present, nonzero) file_size. -/
def imageDetailText (img : DownloadedArtifact) : String :=
  strConcat
    [ "Image ", toString img.index, ":"
    , match img.localPath with
      | some p => "\n  Local Path: " ++ p
      | none => ""
    , "\n  Original URL: ", img.url
    , "\n  Filename: ", img.filename
    , "\n  Content Type: ", img.content_type
    , match img.file_size with
      | some n => if n = 0 then "" else "\n  File Size: " ++ toString n ++ " bytes"
      | none => "" ]

/-- The optimizer line of the generate report: present only when
prompt_optimizer was supplied (src/index.ts line 252). -/
def optimizerLine : Option Bool → String
  | some b => if b then "Prompt Optimizer: Enabled" else "Prompt Optimizer: Disabled"
  | none => ""

/-- The seed line of the reports (src/index.ts lines 253 and 563): the
template tests output.seed for truthiness, so a seed of 0 renders as
Auto-generated exactly like an absent seed. -/
def seedLine : Option Nat → String
  | some s => if s = 0 then "Seed: Auto-generated" else "Seed: " ++ toString s
  | none => "Seed: Auto-generated"

/-- The closing note of the reports (src/index.ts lines 259 and 568). -/
def downloadNote (arts : List DownloadedArtifact) : String :=
  if arts.any (fun img => img.localPath.isSome) then
    "Images have been downloaded to the local \x27images\x27 directory."
  else
    "Note: Local download failed, but original URLs are available."

/-- The success responseText of minimax_generate (src/index.ts 247-259). -/
def genResponseText (prompt aspect : String) (numImages : Nat)
    (optimizer : Option Bool) (seed : Option Nat) (requestId : String)
    (arts : List DownloadedArtifact) : String :=
  strConcat
    [ "Successfully generated ", toString arts.length
    , " image(s) using fal-ai/minimax/image-01:\n\nPrompt: \"", prompt
    , "\"\nAspect Ratio: ", aspect
    , "\nNumber of Images: ", toString numImages
    , "\n", optimizerLine optimizer
    , "\n", seedLine seed
    , "\nRequest ID: ", requestId
    , "\n\nGenerated Images:\n", joinSep "\n\n" (arts.map imageDetailText)
    , "\n\n", downloadNote arts ]

/-- The error response every handler returns when FAL_KEY was absent at
startup (src/index.ts lines 152-160 and the three copies). -/
def noKeyResponse : ToolResponse :=
  { content := ["Error: FAL_KEY environment variable is not set. Please configure your fal.ai API key."]
    isError := true }

/-- The minimax_generate handler (src/index.ts lines 150-289).  The
gateway oracle gw is the fal.subscribe call: it either resolves with a
SubscribeResult or throws, modelled as Except.  The download oracle dl
gives the outcome downloadImage would produce for the 0-based image
position.  The second component of the result is the list of gateway
invocations performed, in order. -/
def runGenerate (falConfigured : Bool) (args : GenArgs)
    (gw : GenInput → Except String SubscribeResult)
    (dl : Nat → Option String) (ts : String) : ToolResponse × List GenInput :=
  if falConfigured = false then (noKeyResponse, [])
  else
    let input := mkGenInput args
    match gw input with
    | Except.error e =>
      ({ content := ["Failed to generate image with fal-ai/minimax/image-01. Error: " ++ e]
         isError := true }, [input])
    | Except.ok result =>
      let output := result.data
      let arts := materialize dl args.prompt output.seed ts output.images
      ({ content := [genResponseText args.prompt input.aspect_ratio
            input.num_images args.prompt_optimizer output.seed
            result.requestId arts]
         isError := false }, [input])

/-- The success text of minimax_generate_queue (src/index.ts 355-361);
the webhook line tests webhook_url for truthiness, so an empty string
renders as not configured. -/
def submitResponseText (prompt : String) (webhook : Option String)
    (requestId : String) : String :=
  strConcat
    [ "Successfully submitted image generation request to queue.\n\nRequest ID: "
    , requestId
    , "\nPrompt: \"", prompt
    , "\"\n"
    , match webhook with
      | some w => if w = "" then "No webhook configured" else "Webhook URL: " ++ w
      | none => "No webhook configured"
    , "\n\nUse the request ID with minimax_queue_status to check progress or minimax_queue_result to get the final result." ]

/-- The minimax_generate_queue handler (src/index.ts lines 330-384). -/
def runQueueSubmit (falConfigured : Bool) (args : QueueArgs)
    (gw : QueueInput × Option String → Except String SubmitResult) :
    ToolResponse × List (QueueInput × Option String) :=
  if falConfigured = false then (noKeyResponse, [])
  else
    let input := mkQueueInput args
    match gw (input, args.webhook_url) with
    | Except.error e =>
      ({ content := ["Failed to submit queue request for fal-ai/minimax/image-01. Error: " ++ e]
         isError := true }, [(input, args.webhook_url)])
    | Except.ok result =>
      ({ content := [submitResponseText input.prompt args.webhook_url result.request_id]
         isError := false }, [(input, args.webhook_url)])

/-- The success text of minimax_queue_status (src/index.ts 429-441); the
Response URL line tests the field for truthiness and the Logs block
appears only for a present nonempty logs array. -/
def statusResponseText (requestId : String) (st : QueueStatusResult) : String :=
  strConcat
    [ "Queue Status for Request ID: ", requestId
    , "\n\nStatus: ", st.status
    , match st.response_url with
      | some u => if u = "" then "" else "\nResponse URL: " ++ u
      | none => ""
    , match st.logs with
      | some ls =>
        if ls.length > 0 then
          "\n\nLogs:\n" ++
            joinSep "\n" (ls.map (fun l => "[" ++ l.timestamp ++ "] " ++ l.message))
        else ""
      | none => "" ]

/-- The minimax_queue_status handler (src/index.ts lines 408-470). -/
def runQueueStatus (falConfigured : Bool) (args : StatusArgs)
    (gw : StatusInput → Except String QueueStatusResult) :
    ToolResponse × List StatusInput :=
  if falConfigured = false then (noKeyResponse, [])
  else
    let input := mkStatusInput args
    match gw input with
    | Except.error e =>
      ({ content := ["Failed to check queue status. Error: " ++ e]
         isError := true }, [input])
    | Except.ok st =>
      ({ content := [statusResponseText args.request_id st]
         isError := false }, [input])

/-- The success text of minimax_queue_result (src/index.ts 559-568). -/
def fetchResponseText (requestId : String) (seed : Option Nat)
    (arts : List DownloadedArtifact) : String :=
  strConcat
    [ "Queue Result for Request ID: ", requestId
    , "\n\nSuccessfully completed! Generated ", toString arts.length
    , " image(s):\n\n", seedLine seed
    , "\n\nGenerated Images:\n", joinSep "\n\n" (arts.map imageDetailText)
    , "\n\n", downloadNote arts ]

/-- The minimax_queue_result handler (src/index.ts lines 489-597); the
naming seed of its filenames is the composite queue_result_{request_id}
string (line 517). -/
def runQueueFetch (falConfigured : Bool) (request_id : String)
    (gw : String → Except String QueueFetchResult)
    (dl : Nat → Option String) (ts : String) : ToolResponse × List String :=
  if falConfigured = false then (noKeyResponse, [])
  else
    match gw request_id with
    | Except.error e =>
      ({ content := ["Failed to get queue result. Error: " ++ e]
         isError := true }, [request_id])
    | Except.ok result =>
      let output := result.data
      let arts := materialize dl ("queue_result_" ++ request_id) output.seed ts
        output.images
      ({ content := [fetchResponseText request_id output.seed arts]
         isError := false }, [request_id])

/-- Outcome of the streamed HTTP body after a 200 response: either the
whole body of the given size is piped to the file, or the write stream
errors mid-stream. -/
inductive StreamOutcome where
  | ok (size : Nat)
  | writeError (msg : String)
deriving DecidableEq

/-- Behaviour of the network for one downloadImage call: either the
request itself errors, or a response arrives with a status code and a
body behaviour. -/
inductive NetResponse where
  | netError (msg : String)
  | http (status : Nat) (body : StreamOutcome)
deriving DecidableEq

/-- downloadImage (src/index.ts lines 51-90), with the images directory
modelled as a map from path to file byte size.  createWriteStream creates
an empty file at the target path before the response status is examined;
the non-200 branch rejects without touching that file; only the write
stream error handler unlinks it; the request error handler also leaves
it in place. -/
def downloadImage (dir : String → Option Nat) (filename : String)
    (resp : NetResponse) : Except String String × (String → Option Nat) :=
  let filePath := "images/" ++ filename
  let dirCreated : String → Option Nat :=
    fun p => if p = filePath then some 0 else dir p
  match resp with
  | NetResponse.netError e => (Except.error e, dirCreated)
  | NetResponse.http status body =>
    if status ≠ 200 then
      (Except.error ("Failed to download image: HTTP " ++ toString status), dirCreated)
    else
      match body with
      | StreamOutcome.ok size =>
        (Except.ok filePath, fun p => if p = filePath then some size else dir p)
      | StreamOutcome.writeError e =>
        (Except.error e, fun p => if p = filePath then none else dir p)

/-- Modelled from the spec: the MCP protocol layer ("register tool with
schema" / rejection "at the schema-validation boundary", spec sections 6
and 8) validates arguments against the declared input schema before a
handler runs; this validation code lives in the SDK, not in src.  The
bound itself is the one declared in the source inputSchema for
num_images: integer, minimum 1, maximum 9 (src/index.ts lines 130-136). -/
def numImagesValid (o : Option Nat) : Bool :=
  match o with
  | some k => decide (1 ≤ k) && decide (k ≤ 9)
  | none => true

/-- Modelled from the spec: the error-flagged response the protocol layer
produces for arguments violating the declared schema. -/
def schemaViolationResponse : ToolResponse :=
  { content := ["Invalid arguments: num_images must be an integer between 1 and 9."]
    isError := true }

/-- Modelled from the spec: dispatch of a minimax_generate call through
the schema-validation boundary; only schema-valid arguments reach the
handler (and hence the gateway). -/
def dispatchGenerate (falConfigured : Bool) (args : GenArgs)
    (gw : GenInput → Except String SubscribeResult)
    (dl : Nat → Option String) (ts : String) : ToolResponse × List GenInput :=
  if numImagesValid args.num_images then runGenerate falConfigured args gw dl ts
  else (schemaViolationResponse, [])

/-- s occurs verbatim as a contiguous substring of t. -/
def Substr (s t : String) : Prop := s.data <:+: t.data

instance (s t : String) : Decidable (Substr s t) :=
  inferInstanceAs (Decidable (s.data <:+: t.data))

theorem substr_refl (s : String) : Substr s s := ⟨[], [], by simp⟩

theorem substr_appL {s t : String} (u : String) (h : Substr s t) :
    Substr s (t ++ u) := by
  obtain ⟨p, q, hpq⟩ := h
  exact ⟨p, q ++ u.data, by rw [String.data_append, ← hpq]; simp⟩

theorem substr_appR {s t : String} (u : String) (h : Substr s t) :
    Substr s (u ++ t) := by
  obtain ⟨p, q, hpq⟩ := h
  exact ⟨u.data ++ p, q, by rw [String.data_append, ← hpq]; simp⟩

theorem substr_concat_mem {s : String} {l : List String} (h : s ∈ l) :
    Substr s (strConcat l) := by
  induction l with
  | nil => cases h
  | cons a rest ih =>
    rcases List.mem_cons.mp h with rfl | hmem
    · exact substr_appL (strConcat rest) (substr_refl s)
    · exact substr_appR a (ih hmem)

theorem substr_concat_of {s t : String} {l : List String} (h : t ∈ l)
    (hs : Substr s t) : Substr s (strConcat l) := by
  induction l with
  | nil => cases h
  | cons a rest ih =>
    rcases List.mem_cons.mp h with rfl | hmem
    · exact substr_appL (strConcat rest) hs
    · exact substr_appR a (ih hmem)

theorem substr_joinSep_of {s t : String} (sep : String) {l : List String}
    (h : t ∈ l) (hs : Substr s t) : Substr s (joinSep sep l) := by
  induction l with
  | nil => cases h
  | cons a rest ih =>
    rcases List.mem_cons.mp h with rfl | hmem
    · cases rest with
      | nil => exact hs
      | cons b rest2 =>
        show Substr s (t ++ sep ++ joinSep sep (b :: rest2))
        exact substr_appL _ (substr_appL _ hs)
    · cases rest with
      | nil => cases hmem
      | cons b rest2 =>
        show Substr s (a ++ sep ++ joinSep sep (b :: rest2))
        have : Substr s (joinSep sep (b :: rest2)) := ih hmem
        exact substr_appR _ this

theorem materializeFrom_length (dl : Nat → Option String) (prompt : String)
    (seed : Option Nat) (ts : String) :
    ∀ (imgs : List ImageInfo) (k : Nat),
      (materializeFrom dl prompt seed ts k imgs).length = imgs.length := by
  intro imgs
  induction imgs with
  | nil => intro k; rfl
  | cons img rest ih =>
    intro k
    show (mkArtifact dl prompt seed ts k img ::
      materializeFrom dl prompt seed ts (k + 1) rest).length = rest.length + 1
    rw [List.length_cons, ih (k + 1)]

theorem materializeFrom_getElem (dl : Nat → Option String) (prompt : String)
    (seed : Option Nat) (ts : String) :
    ∀ (imgs : List ImageInfo) (k j : Nat),
      (materializeFrom dl prompt seed ts k imgs)[j]? =
        imgs[j]?.map (fun img => mkArtifact dl prompt seed ts (k + j) img) := by
  intro imgs
  induction imgs with
  | nil => intro k j; simp [materializeFrom]
  | cons img rest ih =>
    intro k j
    cases j with
    | zero => simp [materializeFrom]
    | succ m =>
      show (mkArtifact dl prompt seed ts k img ::
        materializeFrom dl prompt seed ts (k + 1) rest)[m + 1]? = _
      rw [List.getElem?_cons_succ, ih (k + 1) m, List.getElem?_cons_succ]
      have : k + 1 + m = k + (m + 1) := by omega
      rw [this]

theorem materialize_getElem (dl : Nat → Option String) (prompt : String)
    (seed : Option Nat) (ts : String) (imgs : List ImageInfo) (j : Nat) :
    (materialize dl prompt seed ts imgs)[j]? =
      imgs[j]?.map (fun img => mkArtifact dl prompt seed ts j img) := by
  have h := materializeFrom_getElem dl prompt seed ts imgs 0 j
  simpa [materialize] using h

/-- Claim C1: for a gateway result with n image URLs the download loop of
minimax_generate produces exactly n DownloadedArtifact entries in input
order, entry j carrying the j-th URL, ordinal j+1 and exactly the
download outcome of position j (null local path on failure); entries at
positions other than i are unchanged when only the download outcome at i
changes; and with a successful gateway call the tool response is
non-error regardless of download outcomes. -/
theorem materialize_artifacts_spec
    (dl dl' : Nat → Option String) (prompt ts : String) (seed : Option Nat)
    (imgs : List ImageInfo) (args : GenArgs)
    (gw : GenInput → Except String SubscribeResult) (res : SubscribeResult) :
    (materialize dl prompt seed ts imgs).length = imgs.length
    ∧ (∀ j, j < imgs.length → ∃ a img,
        (materialize dl prompt seed ts imgs)[j]? = some a ∧ imgs[j]? = some img
        ∧ a.url = img.url ∧ a.index = j + 1 ∧ a.localPath = dl j)
    ∧ (∀ i, (∀ j, j ≠ i → dl' j = dl j) → ∀ j, j ≠ i →
        (materialize dl' prompt seed ts imgs)[j]? =
          (materialize dl prompt seed ts imgs)[j]?)
    ∧ (gw (mkGenInput args) = Except.ok res →
        (runGenerate true args gw dl ts).1.isError = false) := by
  refine ⟨materializeFrom_length dl prompt seed ts imgs 0, ?_, ?_, ?_⟩
  · intro j hj
    refine ⟨mkArtifact dl prompt seed ts j imgs[j], imgs[j], ?_, ?_, rfl, rfl, rfl⟩
    · rw [materialize_getElem, List.getElem?_eq_getElem hj]
      rfl
    · exact List.getElem?_eq_getElem hj
  · intro i hagree j hj
    rw [materialize_getElem, materialize_getElem]
    cases himg : imgs[j]? with
    | none => rfl
    | some img => simp [mkArtifact, hagree j hj]
  · intro hgw
    simp [runGenerate, hgw]

/-- Concrete download oracle for the claim C1 witness: position 0 fails,
every other position succeeds. -/
def cDl : Nat → Option String := fun j => if j = 0 then none else some "images/x.png"

/-- Concrete download oracle where every position succeeds. -/
def cDl2 : Nat → Option String := fun _ => some "images/x.png"

/-- Concrete two-image gateway payload. -/
def cImgs : List ImageInfo :=
  [{ url := "u1", content_type := none, file_name := none, file_size := none },
   { url := "u2", content_type := none, file_name := none, file_size := none }]

/-- Concrete minimax_generate arguments. -/
def cArgs : GenArgs :=
  { prompt := "p", aspect_ratio := none, num_images := none,
    prompt_optimizer := none, sync_mode := none }

/-- Concrete successful gateway result. -/
def cRes : SubscribeResult := { data := { images := cImgs, seed := none }, requestId := "rid" }

theorem materialize_artifacts_spec_witness :
    (∃ a img, (materialize cDl "p" none "T" cImgs)[1]? = some a
      ∧ cImgs[1]? = some img ∧ a.url = img.url ∧ a.index = 2
      ∧ a.localPath = some "images/x.png")
    ∧ (materialize cDl2 "p" none "T" cImgs)[1]? =
        (materialize cDl "p" none "T" cImgs)[1]?
    ∧ (runGenerate true cArgs (fun _ => Except.ok cRes) cDl "T").1.isError = false := by
  have h := materialize_artifacts_spec cDl cDl2 "p" "T" none cImgs cArgs
    (fun _ => Except.ok cRes) cRes
  obtain ⟨-, h2, h3, h4⟩ := h
  refine ⟨?_, ?_, h4 rfl⟩
  · obtain ⟨a, img, h5, h6, h7, h8, h9⟩ := h2 1 (by decide)
    refine ⟨a, img, h5, h6, h7, h8, ?_⟩
    rw [h9]
    rfl
  · refine h3 0 ?_ 1 (by decide)
    intro j hj
    simp [cDl, cDl2, hj]

/-- Claim C2: with the credential absent at process start (falConfigured
false), every invocation of each of the four tools returns the one fixed
error-flagged response and performs no gateway call, whatever the
arguments and whatever the gateway would have done. -/
theorem missing_key_short_circuits
    (gargs : GenArgs) (qargs : QueueArgs) (sargs : StatusArgs) (rid : String)
    (gw1 : GenInput → Except String SubscribeResult)
    (gw2 : QueueInput × Option String → Except String SubmitResult)
    (gw3 : StatusInput → Except String QueueStatusResult)
    (gw4 : String → Except String QueueFetchResult)
    (dl : Nat → Option String) (ts : String) :
    runGenerate false gargs gw1 dl ts = (noKeyResponse, [])
    ∧ runQueueSubmit false qargs gw2 = (noKeyResponse, [])
    ∧ runQueueStatus false sargs gw3 = (noKeyResponse, [])
    ∧ runQueueFetch false rid gw4 dl ts = (noKeyResponse, [])
    ∧ noKeyResponse.isError = true :=
  ⟨rfl, rfl, rfl, rfl, rfl⟩

/-- Claim C3: every tool handler, for every input and every gateway
behaviour including a thrown failure, returns a structured response with
exactly one text block; and a throwing gateway call is converted into the
error-flagged response embedding the failure message, never propagated. -/
theorem handlers_return_structured_responses
    (cfg : Bool) (gargs : GenArgs) (qargs : QueueArgs) (sargs : StatusArgs)
    (rid : String)
    (gw1 : GenInput → Except String SubscribeResult)
    (gw2 : QueueInput × Option String → Except String SubmitResult)
    (gw3 : StatusInput → Except String QueueStatusResult)
    (gw4 : String → Except String QueueFetchResult)
    (dl : Nat → Option String) (ts : String) (e : String) :
    (∃ t, (runGenerate cfg gargs gw1 dl ts).1.content = [t])
    ∧ (∃ t, (runQueueSubmit cfg qargs gw2).1.content = [t])
    ∧ (∃ t, (runQueueStatus cfg sargs gw3).1.content = [t])
    ∧ (∃ t, (runQueueFetch cfg rid gw4 dl ts).1.content = [t])
    ∧ (cfg = true → gw1 (mkGenInput gargs) = Except.error e →
        (runGenerate cfg gargs gw1 dl ts).1 =
          { content := ["Failed to generate image with fal-ai/minimax/image-01. Error: " ++ e]
            isError := true })
    ∧ (cfg = true → gw2 (mkQueueInput qargs, qargs.webhook_url) = Except.error e →
        (runQueueSubmit cfg qargs gw2).1 =
          { content := ["Failed to submit queue request for fal-ai/minimax/image-01. Error: " ++ e]
            isError := true })
    ∧ (cfg = true → gw3 (mkStatusInput sargs) = Except.error e →
        (runQueueStatus cfg sargs gw3).1 =
          { content := ["Failed to check queue status. Error: " ++ e]
            isError := true })
    ∧ (cfg = true → gw4 rid = Except.error e →
        (runQueueFetch cfg rid gw4 dl ts).1 =
          { content := ["Failed to get queue result. Error: " ++ e]
            isError := true }) := by
  cases cfg with
  | false =>
    exact ⟨⟨_, rfl⟩, ⟨_, rfl⟩, ⟨_, rfl⟩, ⟨_, rfl⟩,
      by simp, by simp, by simp, by simp⟩
  | true =>
    refine ⟨?_, ?_, ?_, ?_, ?_, ?_, ?_, ?_⟩
    · cases h : gw1 (mkGenInput gargs) <;> simp [runGenerate, h]
    · cases h : gw2 (mkQueueInput qargs, qargs.webhook_url) <;>
        simp [runQueueSubmit, h]
    · cases h : gw3 (mkStatusInput sargs) <;> simp [runQueueStatus, h]
    · cases h : gw4 rid <;> simp [runQueueFetch, h]
    · intro _ h; simp [runGenerate, h]
    · intro _ h; simp [runQueueSubmit, h]
    · intro _ h; simp [runQueueStatus, h]
    · intro _ h; simp [runQueueFetch, h]

theorem handlers_return_structured_responses_witness :
    ((true : Bool) = true
      ∧ (fun _ : StatusInput => (Except.error "boom" : Except String QueueStatusResult))
          (mkStatusInput { request_id := "r1", logs := none }) = Except.error "boom")
    ∧ (runQueueStatus true { request_id := "r1", logs := none }
        (fun _ => Except.error "boom")).1 =
      { content := ["Failed to check queue status. Error: " ++ "boom"]
        isError := true } := by
  have h := handlers_return_structured_responses true cArgs
    { prompt := "p", aspect_ratio := none, num_images := none,
      prompt_optimizer := none, webhook_url := none }
    { request_id := "r1", logs := none } "r2"
    (fun _ => Except.ok cRes) (fun _ => Except.ok { request_id := "q" })
    (fun _ => Except.error "boom")
    (fun _ => Except.ok { data := { images := [], seed := none } })
    (fun _ => none) "T" "boom"
  exact ⟨⟨rfl, rfl⟩, h.2.2.2.2.2.2.1 rfl rfl⟩

/-- Claim C9: num_images of 1 and of 9 pass the declared schema bound and
reach the gateway unchanged; num_images of 10 is rejected at the
schema-validation boundary with an error-flagged response and the gateway
is never called. -/
theorem num_images_schema_boundary
    (prompt : String) (ar : Option String) (po sm : Option Bool)
    (gw : GenInput → Except String SubscribeResult)
    (dl : Nat → Option String) (ts : String) :
    ((dispatchGenerate true ⟨prompt, ar, some 1, po, sm⟩ gw dl ts).2 =
        [mkGenInput ⟨prompt, ar, some 1, po, sm⟩]
      ∧ (mkGenInput ⟨prompt, ar, some 1, po, sm⟩).num_images = 1)
    ∧ ((dispatchGenerate true ⟨prompt, ar, some 9, po, sm⟩ gw dl ts).2 =
        [mkGenInput ⟨prompt, ar, some 9, po, sm⟩]
      ∧ (mkGenInput ⟨prompt, ar, some 9, po, sm⟩).num_images = 9)
    ∧ dispatchGenerate true ⟨prompt, ar, some 10, po, sm⟩ gw dl ts =
        (schemaViolationResponse, [])
    ∧ schemaViolationResponse.isError = true := by
  refine ⟨⟨?_, rfl⟩, ⟨?_, rfl⟩, ?_, rfl⟩
  · cases h : gw (mkGenInput ⟨prompt, ar, some 1, po, sm⟩) <;>
      simp [dispatchGenerate, numImagesValid, runGenerate, h]
  · cases h : gw (mkGenInput ⟨prompt, ar, some 9, po, sm⟩) <;>
      simp [dispatchGenerate, numImagesValid, runGenerate, h]
  · simp [dispatchGenerate, numImagesValid]

/-- Claim C10: a non-200 response makes downloadImage reject with an
error naming that status while the file created at the target path before
the status check stays on disk empty; a mid-stream write error instead
deletes the file before rejecting. -/
theorem download_non200_leaves_empty_file
    (dir : String → Option Nat) (filename : String) (status : Nat)
    (body : StreamOutcome) (e : String) (h : status ≠ 200) :
    ((downloadImage dir filename (NetResponse.http status body)).1 =
        Except.error ("Failed to download image: HTTP " ++ toString status)
      ∧ (downloadImage dir filename (NetResponse.http status body)).2
          ("images/" ++ filename) = some 0)
    ∧ ((downloadImage dir filename
          (NetResponse.http 200 (StreamOutcome.writeError e))).1 = Except.error e
      ∧ (downloadImage dir filename
          (NetResponse.http 200 (StreamOutcome.writeError e))).2
          ("images/" ++ filename) = none) := by
  refine ⟨⟨?_, ?_⟩, ?_, ?_⟩ <;> simp [downloadImage, h]

theorem download_non200_leaves_empty_file_witness :
    (404 : Nat) ≠ 200
    ∧ (downloadImage (fun _ => none) "f.png"
        (NetResponse.http 404 (StreamOutcome.ok 5))).1 =
      Except.error ("Failed to download image: HTTP " ++ toString (404 : Nat))
    ∧ (downloadImage (fun _ => none) "f.png"
        (NetResponse.http 404 (StreamOutcome.ok 5))).2 ("images/" ++ "f.png") = some 0
    ∧ (downloadImage (fun _ => none) "f.png"
        (NetResponse.http 200 (StreamOutcome.writeError "disk full"))).2
        ("images/" ++ "f.png") = none := by
  have h := download_non200_leaves_empty_file (fun _ => none) "f.png" 404
    (StreamOutcome.ok 5) "disk full" (by decide)
  exact ⟨by decide, h.1.1, h.1.2, h.2.2⟩

theorem jsToLower_fixes_keepChars : ∀ c ∈ keepChars, jsToLower c = c := by decide

theorem keep_of_keepChars : ∀ c ∈ keepChars, keep c = true := by decide

theorem noWs_of_keepChars : ∀ c ∈ keepChars, isWs c = false := by decide

theorem collapseWs_id : ∀ (l : List Char) (b : Bool),
    (∀ c ∈ l, isWs c = false) → collapseWs b l = l := by
  intro l
  induction l with
  | nil => intro b _; rfl
  | cons c cs ih =>
    intro b h
    have hc : isWs c = false := h c (List.mem_cons_self c cs)
    have hcs : ∀ x ∈ cs, isWs x = false := fun x hx => h x (List.mem_cons_of_mem c hx)
    simp [collapseWs, hc, ih false hcs]

theorem jsToLower_noWs {c : Char} (h : isWs c = false) : isWs (jsToLower c) = false := by
  unfold jsToLower
  cases hf : upperLower.find? (fun p => p.fst == c) with
  | none => exact h
  | some p =>
    have hp : p ∈ upperLower := List.mem_of_find?_eq_some hf
    have hall : ∀ q ∈ upperLower, isWs q.snd = false := by decide
    exact hall p hp

theorem mem_keepChars_of_keep {c : Char} (hk : keep c = true) (hws : isWs c = false) :
    c ∈ keepChars := by
  simp only [keep, hws, Bool.or_false, decide_eq_true_eq] at hk
  exact hk

theorem safePromptL_subset_keepChars (l : List Char)
    (h : ∀ c ∈ l, isWs c = false) : ∀ c ∈ safePromptL l, c ∈ keepChars := by
  intro c hc
  have hfilter : c ∈ (l.map jsToLower).filter keep := by
    have h1 : c ∈ collapseWs false ((l.map jsToLower).filter keep) :=
      List.take_subset 50 _ hc
    have hnoWs : ∀ x ∈ (l.map jsToLower).filter keep, isWs x = false := by
      intro x hx
      obtain ⟨y, hy, rfl⟩ := List.mem_map.mp (List.mem_of_mem_filter hx)
      exact jsToLower_noWs (h y hy)
    rwa [collapseWs_id _ false hnoWs] at h1
  have hkeep : keep c = true := List.of_mem_filter hfilter
  have hnoWs2 : isWs c = false := by
    obtain ⟨y, hy, rfl⟩ := List.mem_map.mp (List.mem_of_mem_filter hfilter)
    exact jsToLower_noWs (h y hy)
  exact mem_keepChars_of_keep hkeep hnoWs2

theorem map_id_of_fixed {α : Type} {f : α → α} :
    ∀ (l : List α), (∀ c ∈ l, f c = c) → l.map f = l := by
  intro l
  induction l with
  | nil => intro _; rfl
  | cons c cs ih =>
    intro h
    rw [List.map_cons, h c (List.mem_cons_self c cs),
      ih (fun x hx => h x (List.mem_cons_of_mem c hx))]

theorem safePromptL_short (l : List Char) : (safePromptL l).length ≤ 50 := by
  unfold safePromptL
  rw [List.length_take]
  exact Nat.min_le_left 50 _

theorem safePromptL_id_of_keepChars (r : List Char)
    (hmem : ∀ c ∈ r, c ∈ keepChars) (hlen : r.length ≤ 50) :
    safePromptL r = r := by
  unfold safePromptL
  rw [map_id_of_fixed r (fun c hc => jsToLower_fixes_keepChars c (hmem c hc)),
    List.filter_eq_self.mpr (fun c hc => keep_of_keepChars c (hmem c hc)),
    collapseWs_id r false (fun c hc => noWs_of_keepChars c (hmem c hc)),
    List.take_of_length_le hlen]

/-- Counterexample for claim C4: the sanitize-and-truncate transform is
not idempotent, because the first pass turns the whitespace run of
"a b" into an underscore and the second pass deletes that underscore
(underscores are not in the kept class [a-z0-9\s]). -/
theorem safePrompt_not_idempotent_cex :
    safePrompt (safePrompt "a b") ≠ safePrompt "a b"
    ∧ safePrompt "a b" = "a_b"
    ∧ safePrompt (safePrompt "a b") = "ab" := by decide

/-- Claim C4 (amended): the sanitize-and-truncate transform is idempotent
on every string containing no whitespace; in general a second application
deletes the underscores the first application introduced when collapsing
whitespace. -/
theorem safePrompt_idempotent_on_ws_free (s : String)
    (h : ∀ c ∈ s.data, isWs c = false) :
    safePrompt (safePrompt s) = safePrompt s := by
  show (⟨safePromptL (safePromptL s.data)⟩ : String) = ⟨safePromptL s.data⟩
  rw [safePromptL_id_of_keepChars (safePromptL s.data)
    (safePromptL_subset_keepChars s.data h) (safePromptL_short s.data)]

theorem safePrompt_idempotent_on_ws_free_witness :
    (∀ c ∈ ("abc-123" : String).data, isWs c = false)
    ∧ safePrompt (safePrompt "abc-123") = safePrompt "abc-123" :=
  ⟨by decide, safePrompt_idempotent_on_ws_free "abc-123" (by decide)⟩

/-- The filename format asserted by the specification sentence behind
claim C7: fixed model-family tag, sanitized naming seed, a _{seed}
suffix whenever an optional seed number is supplied, then ordinal and
dash-normalised ISO timestamp and the png extension. -/
def claimedImageFilename (prompt : String) (index : Nat) (seed : Option Nat)
    (now : String) : String :=
  "minimax_" ++ safePrompt prompt ++
    (match seed with
     | some s => "_" ++ toString s
     | none => "") ++
    "_" ++ toString index ++ "_" ++ tsReplace now ++ ".png"

/-- Counterexample for claim C7: the template tests the seed for
JavaScript truthiness, so a supplied seed of 0 produces no _{seed}
suffix, unlike the claimed format. -/
theorem generateImageFilename_zero_seed_cex :
    generateImageFilename "cat" 1 (some 0) "2025-06-01T12:00:00.000Z" ≠
      claimedImageFilename "cat" 1 (some 0) "2025-06-01T12:00:00.000Z"
    ∧ generateImageFilename "cat" 1 (some 0) "2025-06-01T12:00:00.000Z" =
      "minimax_cat_1_2025-06-01T12-00-00-000Z.png"
    ∧ claimedImageFilename "cat" 1 (some 0) "2025-06-01T12:00:00.000Z" =
      "minimax_cat_0_1_2025-06-01T12-00-00-000Z.png" := by decide

/-- Claim C7 (amended): for every naming seed string, ordinal, timestamp
and optional seed number other than a supplied 0, generateImageFilename
produces exactly the claimed format; a supplied seed of 0 is falsy in the
template and yields no _{seed} suffix. -/
theorem generateImageFilename_format (prompt : String) (index : Nat)
    (seed : Option Nat) (now : String) (h : seed ≠ some 0) :
    generateImageFilename prompt index seed now =
      claimedImageFilename prompt index seed now := by
  cases seed with
  | none => rfl
  | some s =>
    have hs : ¬ s = 0 := fun h0 => h (by rw [h0])
    simp [generateImageFilename, claimedImageFilename, seedPart, hs]

theorem generateImageFilename_format_witness :
    (some 7 : Option Nat) ≠ some 0
    ∧ generateImageFilename "cat" 2 (some 7) "2025-06-01T12:00:00.000Z" =
      claimedImageFilename "cat" 2 (some 7) "2025-06-01T12:00:00.000Z" :=
  ⟨by decide,
    generateImageFilename_format "cat" 2 (some 7) "2025-06-01T12:00:00.000Z" (by decide)⟩

/-- Counterexample for claim C5: when the gateway status call throws, the
catch block formats a message that does not include the request id, so
the formatted text of the response does not contain it. -/
theorem queue_status_error_omits_request_id_cex :
    (runQueueStatus true { request_id := "abc", logs := none }
      (fun _ => Except.error "boom")).1.isError = true
    ∧ (runQueueStatus true { request_id := "abc", logs := none }
        (fun _ => Except.error "boom")).1.content =
      ["Failed to check queue status. Error: boom"]
    ∧ ¬ Substr "abc" (strConcat (runQueueStatus true
        { request_id := "abc", logs := none }
        (fun _ => Except.error "boom")).1.content) := by decide

/-- Claim C5 (amended): when the gateway status call succeeds, the
formatted text of the minimax_queue_status response contains the supplied
request_id verbatim as a substring; on the throwing path the response is
instead the error message, which does not embed the id. -/
theorem queue_status_success_contains_request_id
    (args : StatusArgs) (gw : StatusInput → Except String QueueStatusResult)
    (st : QueueStatusResult) (h : gw (mkStatusInput args) = Except.ok st) :
    ∃ t, (runQueueStatus true args gw).1.content = [t]
      ∧ Substr args.request_id t := by
  refine ⟨statusResponseText args.request_id st, by simp [runQueueStatus, h], ?_⟩
  unfold statusResponseText
  exact substr_concat_mem (by simp)

theorem queue_status_success_contains_request_id_witness :
    ((fun _ : StatusInput =>
        (Except.ok { status := "COMPLETED", response_url := none, logs := none }
          : Except String QueueStatusResult))
      (mkStatusInput { request_id := "abc", logs := none }) =
      Except.ok { status := "COMPLETED", response_url := none, logs := none })
    ∧ ∃ t, (runQueueStatus true { request_id := "abc", logs := none }
        (fun _ => Except.ok { status := "COMPLETED", response_url := none, logs := none })).1.content = [t]
      ∧ Substr "abc" t :=
  ⟨rfl, queue_status_success_contains_request_id
    { request_id := "abc", logs := none }
    (fun _ => Except.ok { status := "COMPLETED", response_url := none, logs := none })
    { status := "COMPLETED", response_url := none, logs := none } rfl⟩

/-- Concrete minimax_generate_queue arguments of the round-trip scenario
behind claim C6. -/
def cQArgs : QueueArgs :=
  { prompt := "test", aspect_ratio := some "16:9", num_images := none,
    prompt_optimizer := none, webhook_url := none }

/-- Counterexample for claim C6: with prompt "test", aspect_ratio "16:9"
and a stub gateway returning request_id "abc123", the response text
contains "abc123" but not "16:9" — the submit success message never
echoes the aspect ratio. -/
theorem queue_submit_aspect_ratio_cex :
    Substr "abc123" (strConcat (runQueueSubmit true cQArgs
      (fun _ => Except.ok { request_id := "abc123" })).1.content)
    ∧ ¬ Substr "16:9" (strConcat (runQueueSubmit true cQArgs
        (fun _ => Except.ok { request_id := "abc123" })).1.content) := by decide

/-- Claim C6 (amended): the round-trip response of minimax_generate_queue
contains the stub's request_id and the prompt verbatim; the chosen aspect
ratio does not appear in the submit response text. -/
theorem queue_submit_contains_id_and_prompt
    (args : QueueArgs)
    (gw : QueueInput × Option String → Except String SubmitResult)
    (res : SubmitResult)
    (h : gw (mkQueueInput args, args.webhook_url) = Except.ok res) :
    ∃ t, (runQueueSubmit true args gw).1.content = [t]
      ∧ Substr res.request_id t ∧ Substr args.prompt t := by
  refine ⟨submitResponseText (mkQueueInput args).prompt args.webhook_url
    res.request_id, by simp [runQueueSubmit, h], ?_, ?_⟩
  · unfold submitResponseText
    exact substr_concat_mem (by simp)
  · unfold submitResponseText
    exact substr_concat_mem (by simp [mkQueueInput])

theorem queue_submit_contains_id_and_prompt_witness :
    ((fun _ : QueueInput × Option String =>
        (Except.ok { request_id := "abc123" } : Except String SubmitResult))
      (mkQueueInput cQArgs, cQArgs.webhook_url) =
      Except.ok { request_id := "abc123" })
    ∧ ∃ t, (runQueueSubmit true cQArgs
        (fun _ => Except.ok { request_id := "abc123" })).1.content = [t]
      ∧ Substr "abc123" t ∧ Substr "test" t :=
  ⟨rfl, queue_submit_contains_id_and_prompt cQArgs
    (fun _ => Except.ok { request_id := "abc123" }) { request_id := "abc123" } rfl⟩

theorem materializeFrom_url_mem (dl : Nat → Option String) (p : String)
    (sd : Option Nat) (ts : String) :
    ∀ (imgs : List ImageInfo) (k : Nat) (img : ImageInfo), img ∈ imgs →
      ∃ a, a ∈ materializeFrom dl p sd ts k imgs ∧ a.url = img.url := by
  intro imgs
  induction imgs with
  | nil => intro k img h; cases h
  | cons i rest ih =>
    intro k img h
    rcases List.mem_cons.mp h with rfl | hmem
    · exact ⟨mkArtifact dl p sd ts k img, List.mem_cons_self _ _, rfl⟩
    · obtain ⟨a, ha, hurl⟩ := ih (k + 1) img hmem
      exact ⟨a, List.mem_cons_of_mem _ ha, hurl⟩

/-- Single image descriptor for the claim C8 counterexample. -/
def cImg0 : ImageInfo :=
  { url := "u", content_type := none, file_name := none, file_size := none }

/-- Gateway payload with a seed of 0, for the claim C8 counterexample. -/
def cRes0 : SubscribeResult :=
  { data := { images := [cImg0], seed := some 0 }, requestId := "rid" }

/-- Counterexample for claim C8: a gateway result that includes the seed
value 0 is reported as Auto-generated (the template tests the seed for
JavaScript truthiness), so the report does not carry the included seed. -/
theorem generate_report_zero_seed_cex :
    cRes0.data.seed = some 0
    ∧ Substr "Seed: Auto-generated" (strConcat (runGenerate true cArgs
        (fun _ => Except.ok cRes0) (fun _ => some "images/x.png") "T").1.content)
    ∧ ¬ Substr "Seed: 0" (strConcat (runGenerate true cArgs
        (fun _ => Except.ok cRes0) (fun _ => some "images/x.png") "T").1.content) := by
  decide

/-- Claim C8 (amended): on a successful minimax_generate call the report
contains the prompt, the chosen aspect ratio, the image count, the
optimizer flag state when supplied, the gateway request identifier,
every image URL of the per-image details, and the seed value whenever
the result includes a nonzero seed — a seed of 0, like an absent one,
renders as Auto-generated. -/
theorem generate_report_contents
    (args : GenArgs) (gw : GenInput → Except String SubscribeResult)
    (dl : Nat → Option String) (ts : String) (res : SubscribeResult)
    (h : gw (mkGenInput args) = Except.ok res) :
    ∃ t, (runGenerate true args gw dl ts).1.content = [t]
      ∧ (runGenerate true args gw dl ts).1.isError = false
      ∧ Substr args.prompt t
      ∧ Substr (mkGenInput args).aspect_ratio t
      ∧ Substr (toString (mkGenInput args).num_images) t
      ∧ (∀ b, args.prompt_optimizer = some b → Substr (optimizerLine (some b)) t)
      ∧ Substr res.requestId t
      ∧ (∀ s, res.data.seed = some s → s ≠ 0 → Substr ("Seed: " ++ toString s) t)
      ∧ (res.data.seed = none → Substr "Seed: Auto-generated" t)
      ∧ (∀ img, img ∈ res.data.images → Substr img.url t) := by
  refine ⟨genResponseText args.prompt (mkGenInput args).aspect_ratio
    (mkGenInput args).num_images args.prompt_optimizer res.data.seed
    res.requestId (materialize dl args.prompt res.data.seed ts res.data.images),
    ?_, ?_, ?_, ?_, ?_, ?_, ?_, ?_, ?_, ?_⟩
  · simp [runGenerate, h]
  · simp [runGenerate, h]
  · unfold genResponseText
    exact substr_concat_mem (by simp)
  · unfold genResponseText
    exact substr_concat_mem (by simp)
  · unfold genResponseText
    exact substr_concat_mem (by simp)
  · intro b hb
    rw [hb]
    unfold genResponseText
    exact substr_concat_mem (by simp)
  · unfold genResponseText
    exact substr_concat_mem (by simp)
  · intro s hs hs0
    have hline : seedLine res.data.seed = "Seed: " ++ toString s := by
      rw [hs]; simp [seedLine, hs0]
    unfold genResponseText
    refine substr_concat_of (t := seedLine res.data.seed) (by simp) ?_
    rw [hline]
    exact substr_refl _
  · intro hnone
    have hline : seedLine res.data.seed = "Seed: Auto-generated" := by
      rw [hnone]; rfl
    unfold genResponseText
    refine substr_concat_of (t := seedLine res.data.seed) (by simp) ?_
    rw [hline]
    exact substr_refl _
  · intro img hmem
    obtain ⟨a, ha, hurl⟩ := materializeFrom_url_mem dl args.prompt res.data.seed
      ts res.data.images 0 img hmem
    unfold genResponseText
    refine substr_concat_of
      (t := joinSep "\n\n" (List.map imageDetailText
        (materialize dl args.prompt res.data.seed ts res.data.images)))
      (by simp) (substr_joinSep_of "\n\n"
        (List.mem_map_of_mem imageDetailText ha) ?_)
    unfold imageDetailText
    rw [← hurl]
    exact substr_concat_mem (by simp)

theorem generate_report_contents_witness :
    ((fun _ : GenInput => (Except.ok cRes : Except String SubscribeResult))
      (mkGenInput cArgs) = Except.ok cRes)
    ∧ ∃ t, (runGenerate true cArgs (fun _ => Except.ok cRes)
        (fun _ => some "images/x.png") "T").1.content = [t]
      ∧ Substr "p" t ∧ Substr "1:1" t ∧ Substr "rid" t ∧ Substr "u1" t := by
  have h := generate_report_contents cArgs (fun _ => Except.ok cRes)
    (fun _ => some "images/x.png") "T" cRes rfl
  obtain ⟨t, h1, h2, h3, h4, h5, h6, h7, h8, h9, h10⟩ := h
  refine ⟨rfl, t, h1, h3, h4, h7, ?_⟩
  exact h10 ⟨"u1", none, none, none⟩ (by decide)
